import Mathlib

/-!
Verification of the airgo3d image-service backend (TypeScript/Express/Mongoose)
against its natural-language specification.

The controller functions of src/controllers/imageController.ts are shallowly
embedded as pure Lean functions: the Mongo collection becomes a list of
records, each endpoint becomes a function from the collection (plus the
request data and the values the code reads from its environment, such as the
clock and the outcomes of external calls) to a response and the updated
collection.  Machine integers are Nat with explicit mod where overflow
matters; fallible external calls are modelled by explicit outcome parameters.
-/

set_option maxRecDepth 100000

namespace AirGo

/-! ## SHA-256 (model of node's crypto.createHash("sha256"))

The upload handler computes the content fingerprint with
crypto.createHash("sha256").update(buffer).update(String(Date.now())).digest("hex").
Node's sha256 is FIPS 180-4 SHA-256; it is embedded here over byte lists,
with 32-bit words as Nat reduced mod 2^32. -/

/-- Reduce to a 32-bit word. -/
def w32 (n : Nat) : Nat := n % 4294967296

/-- 32-bit rotate right (input assumed < 2^32). -/
def rotr32 (x n : Nat) : Nat := w32 ((x >>> n) ||| (x <<< (32 - n)))

/-- SHA-256 Ch function; bitwise NOT is xor with the 32-bit all-ones mask. -/
def shaCh (e f g : Nat) : Nat := (e &&& f) ^^^ ((e ^^^ 4294967295) &&& g)

/-- SHA-256 Maj function. -/
def shaMaj (a b c : Nat) : Nat := (a &&& b) ^^^ (a &&& c) ^^^ (b &&& c)

/-- SHA-256 big sigma-0. -/
def bSig0 (x : Nat) : Nat := rotr32 x 2 ^^^ rotr32 x 13 ^^^ rotr32 x 22

/-- SHA-256 big sigma-1. -/
def bSig1 (x : Nat) : Nat := rotr32 x 6 ^^^ rotr32 x 11 ^^^ rotr32 x 25

/-- SHA-256 small sigma-0. -/
def sSig0 (x : Nat) : Nat := rotr32 x 7 ^^^ rotr32 x 18 ^^^ (x >>> 3)

/-- SHA-256 small sigma-1. -/
def sSig1 (x : Nat) : Nat := rotr32 x 17 ^^^ rotr32 x 19 ^^^ (x >>> 10)

/-- The 64 SHA-256 round constants. -/
def shaK : List Nat :=
  [1116352408, 1899447441, 3049323471, 3921009573, 961987163,
   1508970993, 2453635748, 2870763221, 3624381080, 310598401,
   607225278, 1426881987, 1925078388, 2162078206, 2614888103,
   3248222580, 3835390401, 4022224774, 264347078, 604807628,
   770255983, 1249150122, 1555081692, 1996064986, 2554220882,
   2821834349, 2952996808, 3210313671, 3336571891, 3584528711,
   113926993, 338241895, 666307205, 773529912, 1294757372,
   1396182291, 1695183700, 1986661051, 2177026350, 2456956037,
   2730485921, 2820302411, 3259730800, 3345764771, 3516065817,
   3600352804, 4094571909, 275423344, 430227734, 506948616,
   659060556, 883997877, 958139571, 1322822218, 1537002063,
   1747873779, 1955562222, 2024104815, 2227730452, 2361852424,
   2428436474, 2756734187, 3204031479, 3329325298]

/-- A SHA-256 state: eight 32-bit words. -/
structure Digest where
  d0 : Nat
  d1 : Nat
  d2 : Nat
  d3 : Nat
  d4 : Nat
  d5 : Nat
  d6 : Nat
  d7 : Nat
  deriving DecidableEq, Repr

/-- The SHA-256 initial hash value. -/
def shaH0 : Digest :=
  ⟨1779033703, 3144134277, 1013904242, 2773480762,
   1359893119, 2600822924, 528734635, 1541459225⟩

/-- Big-endian 64-bit length field of the SHA-256 padding. -/
def be64 (n : Nat) : List Nat :=
  [n / 72057594037927936 % 256, n / 281474976710656 % 256,
   n / 1099511627776 % 256, n / 4294967296 % 256,
   n / 16777216 % 256, n / 65536 % 256, n / 256 % 256, n % 256]

/-- SHA-256 padding: append 0x80, zero bytes to 56 mod 64, then the bit length. -/
def padMessage (msg : List Nat) : List Nat :=
  let L := msg.length
  msg ++ 0x80 :: List.replicate ((119 - L % 64) % 64) 0 ++ be64 (L * 8)

/-- Split a byte list into big-endian 32-bit words. -/
def bytesToWords : List Nat → List Nat
  | b0 :: b1 :: b2 :: b3 :: rest =>
      (b0 * 16777216 + b1 * 65536 + b2 * 256 + b3) :: bytesToWords rest
  | _ => []

/-- Split a (padded) byte list into 64-byte blocks; the fuel argument is an
upper bound on the block count that makes the recursion structural (and hence
evaluable by the kernel). -/
def toBlocksFuel : Nat → List Nat → List (List Nat)
  | 0, _ => []
  | _, [] => []
  | fuel + 1, x :: xs => (x :: xs).take 64 :: toBlocksFuel fuel ((x :: xs).drop 64)

/-- Split a (padded) byte list into 64-byte blocks. -/
def toBlocks (l : List Nat) : List (List Nat) := toBlocksFuel l.length l

/-- One step of the SHA-256 message-schedule extension. -/
def scheduleStep (w : List Nat) (i : Nat) : Nat :=
  w32 (sSig1 (w.getD (i - 2) 0) + w.getD (i - 7) 0 +
       sSig0 (w.getD (i - 15) 0) + w.getD (i - 16) 0)

/-- Extend the 16-word schedule by the given number of words. -/
def extendSchedule (w : List Nat) : Nat → List Nat
  | 0 => w
  | n + 1 => extendSchedule (w ++ [scheduleStep w w.length]) n

/-- One SHA-256 compression round; kw is the (constant, schedule word) pair. -/
def roundStep (st : Digest) (kw : Nat × Nat) : Digest :=
  let t1 := w32 (st.d7 + bSig1 st.d4 + shaCh st.d4 st.d5 st.d6 + kw.1 + kw.2)
  let t2 := w32 (bSig0 st.d0 + shaMaj st.d0 st.d1 st.d2)
  ⟨w32 (t1 + t2), st.d0, st.d1, st.d2, w32 (st.d3 + t1), st.d4, st.d5, st.d6⟩

/-- Compress one 64-byte block into the running digest. -/
def compressBlock (st : Digest) (block : List Nat) : Digest :=
  let w := extendSchedule (bytesToWords block) 48
  let r := (shaK.zip w).foldl roundStep st
  ⟨w32 (st.d0 + r.d0), w32 (st.d1 + r.d1), w32 (st.d2 + r.d2),
   w32 (st.d3 + r.d3), w32 (st.d4 + r.d4), w32 (st.d5 + r.d5),
   w32 (st.d6 + r.d6), w32 (st.d7 + r.d7)⟩

/-- SHA-256 of a byte list, as the eight-word digest. -/
def sha256Words (msg : List Nat) : Digest :=
  (toBlocks (padMessage msg)).foldl compressBlock shaH0

/-- Lowercase hex digit, as node's digest("hex") produces. -/
def hexDigit : Nat → Char
  | 0 => '0' | 1 => '1' | 2 => '2' | 3 => '3' | 4 => '4'
  | 5 => '5' | 6 => '6' | 7 => '7' | 8 => '8' | 9 => '9'
  | 10 => 'a' | 11 => 'b' | 12 => 'c' | 13 => 'd' | 14 => 'e' | 15 => 'f'
  | _ => '?'

/-- Eight-hex-digit rendering of one 32-bit word. -/
def hex8 (w : Nat) : String :=
  ⟨[hexDigit (w / 268435456 % 16), hexDigit (w / 16777216 % 16),
    hexDigit (w / 1048576 % 16), hexDigit (w / 65536 % 16),
    hexDigit (w / 4096 % 16), hexDigit (w / 256 % 16),
    hexDigit (w / 16 % 16), hexDigit (w % 16)]⟩

/-- SHA-256 hex digest of a byte list. -/
def sha256Hex (msg : List Nat) : String :=
  let d := sha256Words msg
  hex8 d.d0 ++ hex8 d.d1 ++ hex8 d.d2 ++ hex8 d.d3 ++
  hex8 d.d4 ++ hex8 d.d5 ++ hex8 d.d6 ++ hex8 d.d7

/-- Validation of the SHA-256 model against the FIPS 180-4 test vector for
the three-byte message abc. -/
theorem sha256Hex_abc :
    sha256Hex [97, 98, 99] =
      "ba7816bf8f01cfea414140de5dae2223b00361a396177a9cb410ff61f20015ad" := by
  decide

/-- Validation of the SHA-256 model against the empty-message test vector. -/
theorem sha256Hex_empty :
    sha256Hex [] =
      "e3b0c44298fc1c149afbf4c8996fb92427ae41e4649b934ca495991b7852b855" := by
  decide

/-! ## Decimal rendering (model of JS String(n) on a non-negative integer) -/

/-- Decimal digit as a character. -/
def digitChar : Nat → Char
  | 0 => '0' | 1 => '1' | 2 => '2' | 3 => '3' | 4 => '4'
  | 5 => '5' | 6 => '6' | 7 => '7' | 8 => '8' | 9 => '9'
  | _ => '?'

/-- Little-endian decimal digits with explicit fuel; the fuel keeps the
recursion structural so that the kernel can evaluate it.  Agrees with
Mathlib's Nat.digits 10 whenever the fuel suffices (decDigitsFuel_eq). -/
def decDigitsFuel : Nat → Nat → List Nat
  | 0, _ => []
  | _, 0 => []
  | fuel + 1, n + 1 => ((n + 1) % 10) :: decDigitsFuel fuel ((n + 1) / 10)

/-- Little-endian decimal digits of a Nat. -/
def decDigits (n : Nat) : List Nat := decDigitsFuel n n

/-- Decimal digits of a Nat, most significant first (JS String(n)). -/
def natDecimalChars (n : Nat) : List Char :=
  if n = 0 then ['0'] else ((decDigits n).reverse.map digitChar)

/-- Decimal string of a Nat (JS String(n), e.g. String(Date.now())). -/
def natDecimalString (n : Nat) : String := ⟨natDecimalChars n⟩

/-- ASCII bytes of the decimal string of a Nat, as hashed by
update(String(Date.now())). -/
def natDecimalBytes (n : Nat) : List Nat :=
  if n = 0 then [48] else ((decDigits n).reverse.map (· + 48))

/-- The content fingerprint of uploadMultipleImages (imageController.ts
326-330): sha256 over the file bytes followed by the decimal string of the
clock value read at hash time. -/
def computeFingerprint (buffer : List Nat) (salt : Nat) : String :=
  sha256Hex (buffer ++ natDecimalBytes salt)

/-- The byte list fed to the sha256 digest by the fingerprint computation. -/
def fingerprintInput (buffer : List Nat) (salt : Nat) : List Nat :=
  buffer ++ natDecimalBytes salt

/-! ## The Image document (src/models/Image.ts)

The Mongo ObjectId of the document and of its owning user are modelled as
Nat.  The createdAt/updatedAt timestamps added by the schema's
timestamps: true option are Nats (milliseconds). -/

/-- One Image document, as declared by the mongoose schema. -/
structure ImageRec where
  id : Nat
  user : Nat
  filename : String
  originalUrl : String
  thumbnailUrl : String
  fileSize : Nat
  mimeType : String
  resolutionWidth : Option Nat
  resolutionHeight : Option Nat
  title : Option String
  description : Option String
  tags : List String
  bookmarked : Bool
  viewCount : Nat
  hash : String
  sharePassword : Option String
  createdAt : Nat
  updatedAt : Nat
  deriving DecidableEq, Repr

/-- Image.findOne with two equality conditions, as used by the owner-scoped
endpoints: first document whose id and user match. -/
def findImageByIdUser (store : List ImageRec) (imgId uid : Nat) : Option ImageRec :=
  store.find? (fun r => r.id == imgId && r.user == uid)

/-- document.save(): the stored document with this id is replaced by the
mutated one (mongoose rewrites the document held in memory). -/
def saveImage (store : List ImageRec) (img : ImageRec) : List ImageRec :=
  store.map (fun r => if r.id == img.id then img else r)

/-! ## String helpers used by the controller -/

/-- Model of JS whitespace for the \s regex class. -/
def isJsWs (c : Char) : Bool := c.isWhitespace

/-- originalname.replace(/\s+/g, "_"): each maximal whitespace run becomes a
single underscore.  The boolean argument records whether the previous
character was whitespace, keeping the recursion structural. -/
def collapseWs : Bool → List Char → List Char
  | _, [] => []
  | prevWs, c :: cs =>
      if isJsWs c then
        (if prevWs then collapseWs true cs else '_' :: collapseWs true cs)
      else c :: collapseWs false cs

/-- The sanitised original name used to build the stored filename. -/
def safeName (s : String) : String := ⟨collapseWs false s.data⟩

/-- path.basename: the segment after the last slash. -/
def basename (s : String) : String :=
  ⟨(s.data.reverse.takeWhile (fun c => c != '/')).reverse⟩

/-- JS loose equality (==) restricted to the string-or-absent values that the
share-password comparison sees: undefined/null equal each other, strings
compare by content, a string never equals undefined/null. -/
def jsLooseEqOptStr : Option String → Option String → Bool
  | none, none => true
  | some a, some b => a == b
  | _, _ => false

/-! ## Upload pipeline (uploadMultipleImages, imageController.ts 289-361)

Each multer file carries the data the handler reads from it, plus the
outcome of the sharp decode of its buffer (readable = false models a buffer
sharp rejects; metadata width/height are what sharp would report).  The two
clock parameters are the two Date.now() reads of one iteration: the filename
timestamp and the fingerprint salt. -/

/-- One entry of req.files, together with the behaviour of the external
sharp decode on its buffer. -/
structure UploadFile where
  originalname : String
  buffer : List Nat
  size : Nat
  mimetype : String
  readable : Bool
  width : Option Nat
  height : Option Nat
  deriving DecidableEq, Repr

/-- Why one file of a batch fails: sharp cannot decode the buffer, or
Image.create violates the unique index on hash. -/
inductive UploadErr where
  | invalidImage
  | duplicateHash
  deriving DecidableEq, Repr

/-- The directories of imageController.ts 13-15, relative to the source
directory (path.join(__dirname, "..", "uploads") and its children). -/
def uploadsDirectory : String := "uploads"

/-- Directory holding original artifacts. -/
def originalsDirectory : String := uploadsDirectory ++ "/originals"

/-- Directory holding thumbnails. -/
def thumbnailsDirectory : String := uploadsDirectory ++ "/thumbnails"

/-- path.join(originalsDirectory, filename). -/
def originalFsPathFor (filename : String) : String :=
  originalsDirectory ++ "/" ++ filename

/-- The body of one iteration of the upload loop: build the stored filename
from the first clock read, extract dimensions (fails for an unreadable
buffer), compute the fingerprint from the second clock read, then
Image.create, which fails if the hash already exists (unique index). -/
def processFile (file : UploadFile) (tsName tsSalt : Nat) (newId uid : Nat)
    (store : List ImageRec) : Except UploadErr ImageRec :=
  let filename := natDecimalString tsName ++ "_" ++ safeName file.originalname
  let originalUrl := "/uploads/originals/" ++ filename
  let thumbnailUrl := "/uploads/thumbnails/" ++ filename
  if !file.readable then .error .invalidImage
  else
    let hash := computeFingerprint file.buffer tsSalt
    if store.any (fun r => r.hash == hash) then .error .duplicateHash
    else .ok
      { id := newId, user := uid, filename, originalUrl, thumbnailUrl,
        fileSize := file.size, mimeType := file.mimetype,
        resolutionWidth := file.width, resolutionHeight := file.height,
        title := none, description := none, tags := [], bookmarked := false,
        viewCount := 0, hash, sharePassword := none,
        createdAt := tsSalt, updatedAt := tsSalt }

/-- Response of the upload endpoint. -/
inductive UploadResp where
  | badRequest400
  | created201 (records : List ImageRec)
  | serverError500
  deriving DecidableEq, Repr

/-- HTTP status of an upload response. -/
def uploadRespStatus : UploadResp → Nat
  | .badRequest400 => 400
  | .created201 _ => 201
  | .serverError500 => 500

/-- Whether an upload response is a 201 record list. -/
def uploadRespIsCreated : UploadResp → Bool
  | .created201 _ => true
  | _ => false

/-- The for-of loop of uploadMultipleImages.  Each batch entry carries its two
clock reads.  A failing iteration throws to the surrounding catch: the
response is the generic 500 and the records created so far stay in the store
but are not returned.  When the loop completes, the collected records are
returned with 201. -/
def uploadLoop (uid : Nat) :
    List (UploadFile × Nat × Nat) → List ImageRec → List ImageRec →
      UploadResp × List ImageRec
  | [], store, created => (.created201 created, store)
  | (f, tsName, tsSalt) :: rest, store, created =>
      match processFile f tsName tsSalt store.length uid store with
      | .error _ => (.serverError500, store)
      | .ok img => uploadLoop uid rest (store ++ [img]) (created ++ [img])

/-- uploadMultipleImages: 400 when no files were sent, otherwise run the
per-file loop. -/
def uploadMultipleImages (uid : Nat) (files : List (UploadFile × Nat × Nat))
    (store : List ImageRec) : UploadResp × List ImageRec :=
  if files.isEmpty then (.badRequest400, store) else uploadLoop uid files store []

/-! ## List endpoint (getImages, imageController.ts 97-179)

The query parameters are modelled after the defaults and parseInt coercions
of lines 102-114 have been applied to page and pageSize; the other
parameters keep their raw string form (none models an absent parameter). -/

/-- The query parameters consumed by getImages. -/
structure ListQuery where
  pageNum : Nat
  pageSizeNum : Nat
  sortField : String
  sortOrder : String
  title : Option String
  description : Option String
  tags : Option String
  bookmarked : Option String
  deriving DecidableEq, Repr

/-- Whether the needle occurs in the haystack (character lists). -/
def matchesHere : List Char → List Char → Bool
  | [], _ => true
  | _ :: _, [] => false
  | a :: as, b :: bs => a == b && matchesHere as bs

/-- Substring occurrence on character lists. -/
def occursIn : List Char → List Char → Bool
  | pat, [] => matchesHere pat []
  | pat, c :: cs => matchesHere pat (c :: cs) || occursIn pat cs

/-- Model of the case-insensitive $regex filter for a metacharacter-free
pattern: case-insensitive substring match. -/
def containsCI (pat s : String) : Bool :=
  occursIn pat.toLower.data s.toLower.data

/-- The Mongo filter built in getImages 116-142: always scoped to the owner;
title/description add case-insensitive substring conditions when the
parameter is a non-empty string (JS truthiness); tags adds an any-of
condition over the comma-split list; bookmarked adds an inclusion condition
over the comma-split true/false list.  A $regex condition on an absent
optional field does not match. -/
def matchesFilter (uid : Nat) (q : ListQuery) (r : ImageRec) : Bool :=
  r.user == uid
  && (match q.title with
      | none => true
      | some t =>
          if t == "" then true
          else match r.title with
               | some s => containsCI t s
               | none => false)
  && (match q.description with
      | none => true
      | some t =>
          if t == "" then true
          else match r.description with
               | some s => containsCI t s
               | none => false)
  && (match q.tags with
      | none => true
      | some t =>
          if t == "" then true
          else
            let tagList := t.splitOn ","
            if tagList.length > 0 then r.tags.any (fun tag => tagList.contains tag)
            else true)
  && (match q.bookmarked with
      | none => true
      | some b =>
          if b == "" then true
          else
            let bookmarkedList := (b.splitOn ",").map (fun s => s == "true")
            if bookmarkedList.length > 0 then bookmarkedList.contains r.bookmarked
            else true)

/-- The sort-field allow-list of getImages 144-151. -/
def allowedSortFields : List String :=
  ["title", "fileSize", "viewCount", "createdAt", "updatedAt", "bookmarked"]

/-- Lines 152-156: fall back to createdAt for a field outside the allow-list;
direction 1 for "ascend", otherwise -1. -/
def buildSort (sortField sortOrder : String) : String × Int :=
  (if allowedSortFields.contains sortField then sortField else "createdAt",
   if sortOrder == "ascend" then 1 else -1)

/-- Value of one sortable field of a document, for the Mongo sort order.
Absent optional values sort below present ones. -/
def fieldOrd (field : String) (a b : ImageRec) : Ordering :=
  match field with
  | "title" =>
      match a.title, b.title with
      | none, none => .eq
      | none, some _ => .lt
      | some _, none => .gt
      | some x, some y => compare x y
  | "fileSize" => compare a.fileSize b.fileSize
  | "viewCount" => compare a.viewCount b.viewCount
  | "createdAt" => compare a.createdAt b.createdAt
  | "updatedAt" => compare a.updatedAt b.updatedAt
  | "bookmarked" =>
      compare (if a.bookmarked then 1 else 0) (if b.bookmarked then (1 : Nat) else 0)
  | _ => .eq

/-- Boolean comparison used to sort the result set. -/
def recLe (sort : String × Int) (a b : ImageRec) : Bool :=
  if sort.2 = 1 then fieldOrd sort.1 a b ≠ .gt else fieldOrd sort.1 a b ≠ .lt

/-- Ordered insertion. -/
def insertLe {α : Type} (le : α → α → Bool) (a : α) : List α → List α
  | [] => [a]
  | b :: bs => if le a b then a :: b :: bs else b :: insertLe le a bs

/-- Insertion sort, modelling the repository sort. -/
def insertionSort {α : Type} (le : α → α → Bool) : List α → List α
  | [] => []
  | a :: as => insertLe le a (insertionSort le as)

/-- The filtered collection in query order: Image.find(filter).sort(sort). -/
def sortedFiltered (store : List ImageRec) (uid : Nat) (q : ListQuery) :
    List ImageRec :=
  insertionSort (recLe (buildSort q.sortField q.sortOrder))
    (store.filter (matchesFilter uid q))

/-- The JSON body returned by getImages. -/
structure GetImagesRes where
  data : List ImageRec
  total : Nat
  page : Nat
  pageSize : Nat
  deriving DecidableEq, Repr

/-- getImages 158-172: countDocuments(filter) for total, and
find(filter).sort(sort).skip((page-1)*pageSize).limit(pageSize) for data. -/
def getImages (store : List ImageRec) (uid : Nat) (q : ListQuery) :
    GetImagesRes :=
  { data := ((sortedFiltered store uid q).drop
               ((q.pageNum - 1) * q.pageSizeNum)).take q.pageSizeNum,
    total := (store.filter (matchesFilter uid q)).length,
    page := q.pageNum,
    pageSize := q.pageSizeNum }

/-! ## Public hash lookup (getImageByHash, imageController.ts 232-269) -/

/-- Response of the public hash endpoint. -/
inductive HashResp where
  | notFound404
  | passwordMismatch404
  | ok200 (id : Nat) (hash : String) (imageUrl : String)
  deriving DecidableEq, Repr

/-- HTTP status of a hash-lookup response. -/
def hashRespStatus : HashResp → Nat
  | .notFound404 => 404
  | .passwordMismatch404 => 404
  | .ok200 _ _ _ => 200

/-- getImageByHash: find by hash with no owner scoping; 404 when absent; 404
when the loose comparison of stored and supplied sharePassword fails (the
console.log is a side effect without state); otherwise increment viewCount,
save, and return the absolute URL of the original artifact. -/
def getImageByHash (store : List ImageRec) (hash : String)
    (sharePassword : Option String) (proto host : String) (now : Nat) :
    HashResp × List ImageRec :=
  match store.find? (fun r => r.hash == hash) with
  | none => (.notFound404, store)
  | some image =>
      if !jsLooseEqOptStr image.sharePassword sharePassword then
        (.passwordMismatch404, store)
      else
        let image2 := { image with viewCount := image.viewCount + 1,
                                   updatedAt := now }
        (.ok200 image.id hash (proto ++ "://" ++ host ++ image.originalUrl),
         saveImage store image2)

/-! ## Details update (updateImageDetails, imageController.ts 407-445) -/

/-- The request body of PATCH /images/:id/details.  tags is present exactly
when the body carried an array (the Array.isArray check of line 431). -/
structure DetailsBody where
  title : Option String
  description : Option String
  tags : Option (List String)
  sharePassword : Option String
  deriving DecidableEq, Repr

/-- Model of JS String.prototype.trim: drop whitespace from both ends.
Defined over the character list so that the kernel can evaluate it. -/
def jsTrim (s : String) : String :=
  ⟨((s.data.dropWhile Char.isWhitespace).reverse.dropWhile
      Char.isWhitespace).reverse⟩

/-- Lines 431-433: an array body value is trimmed entrywise and cleared of
falsy (empty) entries; anything else yields the empty list. -/
def normalizeTags : Option (List String) → List String
  | some ts => (ts.map jsTrim).filter (fun t => t ≠ "")
  | none => []

/-- Response of the details-update endpoint. -/
inductive DetailsResp where
  | notFound404
  | ok200 (img : ImageRec)
  deriving DecidableEq, Repr

/-- The updated record of a details response, when there is one. -/
def detailsRespRecord : DetailsResp → Option ImageRec
  | .notFound404 => none
  | .ok200 img => some img

/-- updateImageDetails: owner-scoped findOne; 404 when absent; otherwise
assign title, description, normalized tags and sharePassword from the body
(absent body fields clear the stored ones), save, and return the document.
The save refreshes updatedAt (schema timestamps). -/
def updateImageDetails (store : List ImageRec) (imgId uid : Nat)
    (body : DetailsBody) (now : Nat) : DetailsResp × List ImageRec :=
  match findImageByIdUser store imgId uid with
  | none => (.notFound404, store)
  | some image =>
      let image2 := { image with
        title := body.title,
        description := body.description,
        tags := normalizeTags body.tags,
        sharePassword := body.sharePassword,
        updatedAt := now }
      (.ok200 image2, saveImage store image2)

/-! ## Bookmark toggle (updateToggleBookmark, imageController.ts 447-478) -/

/-- A JSON value as it may arrive in the bookmarked field of the body. -/
inductive JsVal where
  | jbool (b : Bool)
  | jstr (s : String)
  | jnum (n : Int)
  | jnull
  deriving DecidableEq, Repr

/-- Response of the bookmark endpoint. -/
inductive BookmarkResp where
  | notFound404
  | ok200 (img : ImageRec)
  deriving DecidableEq, Repr

/-- The updated record of a bookmark response, when there is one. -/
def bookmarkRespRecord : BookmarkResp → Option ImageRec
  | .notFound404 => none
  | .ok200 img => some img

/-- updateToggleBookmark: owner-scoped findOne; 404 when absent; a body value
that is a boolean (typeof check of line 464) is assigned, anything else
(including an absent value) negates the stored flag; save and return the
document. -/
def updateToggleBookmark (store : List ImageRec) (imgId uid : Nat)
    (bookmarked : Option JsVal) (now : Nat) : BookmarkResp × List ImageRec :=
  match findImageByIdUser store imgId uid with
  | none => (.notFound404, store)
  | some image =>
      let newFlag := match bookmarked with
        | some (.jbool b) => b
        | _ => !image.bookmarked
      let image2 := { image with bookmarked := newFlag, updatedAt := now }
      (.ok200 image2, saveImage store image2)

/-! ## AI metadata (callOpenAIMetadata 42-95 and generateAIMetadata 363-405)

The OpenAI completion is external: its outcome enters as parameters.
content is the message content when it is a string, none otherwise;
JSON.parse is a parameter mapping the fence-stripped text to a parsed
metadata object or, when it would throw, none. -/

/-- The AI metadata suggestions object. -/
structure AIMetadata where
  title : Option String
  description : Option String
  tags : Option (List String)
  deriving DecidableEq, Repr

/-- The empty suggestions object returned on an unusable AI response. -/
def emptyAIMetadata : AIMetadata := ⟨none, none, none⟩

/-- The backquote character U+0060, of which a Markdown code fence is three. -/
def fenceChar : Char := Char.ofNat 96

/-- First replace of lines 85-88: when the content starts with a fence and a
newline follows it, drop everything through that first newline (the lazy
any-character class of the anchored pattern). -/
def dropFenceHead (l : List Char) : List Char :=
  match l with
  | c1 :: c2 :: c3 :: rest =>
      if c1 = fenceChar ∧ c2 = fenceChar ∧ c3 = fenceChar then
        (if rest.contains '\n' then (rest.dropWhile (fun c => c ≠ '\n')).drop 1
         else l)
      else l
  | _ => l

/-- Second replace of lines 85-88: drop a trailing fence anchored at the end
of the content. -/
def dropFenceTail (l : List Char) : List Char :=
  match l.reverse with
  | c1 :: c2 :: c3 :: rest =>
      if c1 = fenceChar ∧ c2 = fenceChar ∧ c3 = fenceChar then rest.reverse
      else l
  | _ => l

/-- Lines 85-88: strip a leading fence line and a trailing fence, then trim
surrounding whitespace. -/
def stripFences (s : String) : String :=
  jsTrim (String.mk (dropFenceTail (dropFenceHead s.data)))

/-- callOpenAIMetadata after the completion resolved: a non-string content
yields the empty object; otherwise parse the fence-stripped text, and a
parse failure yields the empty object. -/
def callOpenAIMetadata (parseJson : String → Option AIMetadata)
    (content : Option String) : AIMetadata :=
  match content with
  | none => emptyAIMetadata
  | some c =>
      match parseJson (stripFences c) with
      | none => emptyAIMetadata
      | some m => m

/-- Response of the AI-metadata endpoint. -/
inductive AIResp where
  | err500
  | notFound404
  | ok200 (m : AIMetadata)
  deriving DecidableEq, Repr

/-- HTTP status of an AI-metadata response. -/
def aiRespStatus : AIResp → Nat
  | .err500 => 500
  | .notFound404 => 404
  | .ok200 _ => 200

/-- The path generateAIMetadata reads the artifact from (lines 385-386):
the originals directory joined with the basename of thumbnailUrl. -/
def aiReadPath (img : ImageRec) : String :=
  originalFsPathFor (basename img.thumbnailUrl)

/-- generateAIMetadata: 500 when the AI client is unconfigured; owner-scoped
findOne, 404 when absent; a failing readFile of the artifact or a rejected
completion throws to the catch (500); otherwise 200 with the suggestions
from callOpenAIMetadata. -/
def generateAIMetadata (configured : Bool) (store : List ImageRec)
    (imgId uid : Nat) (readOk aiOk : Bool)
    (parseJson : String → Option AIMetadata) (content : Option String) :
    AIResp :=
  if !configured then .err500
  else match findImageByIdUser store imgId uid with
  | none => .notFound404
  | some _ =>
      if !readOk then .err500
      else if !aiOk then .err500
      else .ok200 (callOpenAIMetadata parseJson content)

/-! ## Helper lemmas -/

/-- After save, a search that the saved document satisfies and that the
previously found document satisfied finds the saved document (they share the
Mongo id, and the search conditions are invariant under the save). -/
theorem find?_saveImage (store : List ImageRec) (p : ImageRec → Bool)
    (r img : ImageRec) (hfind : store.find? p = some r) (himg : p img = true)
    (hid : img.id = r.id) : (saveImage store img).find? p = some img := by
  induction store with
  | nil => simp at hfind
  | cons a l ih =>
      rw [List.find?_cons] at hfind
      unfold saveImage
      rw [List.map_cons, List.find?_cons]
      by_cases hai : (a.id == img.id) = true
      · rw [if_pos hai, himg]
      · rw [if_neg hai]
        by_cases hpa : p a = true
        · simp only [hpa] at hfind
          have har : a = r := by cases hfind; rfl
          refine absurd ?_ hai
          rw [beq_iff_eq, hid, har]
        · simp only [Bool.not_eq_true] at hpa
          simp only [hpa] at hfind
          simp only [hpa]
          simpa [saveImage] using ih hfind

/-- The upload loop never answers 400; the emptiness check happens before it. -/
theorem uploadLoop_ne_badRequest (uid : Nat) :
    ∀ (items : List (UploadFile × Nat × Nat)) (store created : List ImageRec),
      (uploadLoop uid items store created).1 ≠ .badRequest400 := by
  intro items
  induction items with
  | nil => intro store created; simp [uploadLoop]
  | cons it rest ih =>
      intro store created
      obtain ⟨f, tsName, tsSalt⟩ := it
      simp only [uploadLoop]
      cases processFile f tsName tsSalt store.length uid store with
      | error e => simp
      | ok img => exact ih (store ++ [img]) (created ++ [img])

/-- A 201 answer of the upload loop carries the accumulated records plus one
record per remaining item, all of which were appended to the store. -/
theorem uploadLoop_created_spec (uid : Nat) :
    ∀ (items : List (UploadFile × Nat × Nat)) (store created recs : List ImageRec),
      (uploadLoop uid items store created).1 = .created201 recs →
      ∃ added, recs = created ++ added ∧ added.length = items.length ∧
        (uploadLoop uid items store created).2 = store ++ added := by
  intro items
  induction items with
  | nil =>
      intro store created recs h
      simp only [uploadLoop] at h ⊢
      exact ⟨[], by cases h; simp⟩
  | cons it rest ih =>
      intro store created recs h
      obtain ⟨f, tsName, tsSalt⟩ := it
      simp only [uploadLoop] at h ⊢
      generalize processFile f tsName tsSalt store.length uid store = res at h ⊢
      cases res with
      | error e => cases h
      | ok img =>
          dsimp only at h ⊢
          obtain ⟨added, h1, h2, h3⟩ := ih (store ++ [img]) (created ++ [img]) recs h
          exact ⟨img :: added, by simp [h1], by simp [h2], by simp [h3]⟩

/-- A 500 answer of the upload loop leaves the store extended by strictly
fewer records than there are items: some item was not processed. -/
theorem uploadLoop_error_spec (uid : Nat) :
    ∀ (items : List (UploadFile × Nat × Nat)) (store created : List ImageRec),
      (uploadLoop uid items store created).1 = .serverError500 →
      ∃ pre, (uploadLoop uid items store created).2 = store ++ pre ∧
        pre.length < items.length := by
  intro items
  induction items with
  | nil => intro store created h; simp [uploadLoop] at h
  | cons it rest ih =>
      intro store created h
      obtain ⟨f, tsName, tsSalt⟩ := it
      simp only [uploadLoop] at h ⊢
      generalize processFile f tsName tsSalt store.length uid store = res at h ⊢
      cases res with
      | error e => exact ⟨[], by simp⟩
      | ok img =>
          dsimp only at h ⊢
          obtain ⟨pre, h1, h2⟩ := ih (store ++ [img]) (created ++ [img]) h
          exact ⟨img :: pre, by simp [h1], by simpa using Nat.succ_lt_succ h2⟩

/-- A hex word renders as exactly eight characters. -/
theorem hex8_length (w : Nat) : (hex8 w).length = 8 := rfl

/-- The fuel-based digit list agrees with Mathlib's Nat.digits base 10. -/
theorem decDigitsFuel_eq :
    ∀ (fuel n : Nat), n ≤ fuel → decDigitsFuel fuel n = Nat.digits 10 n := by
  intro fuel
  induction fuel with
  | zero =>
      intro n hn
      have : n = 0 := Nat.le_zero.mp hn
      subst this
      simp [decDigitsFuel]
  | succ fuel ih =>
      intro n hn
      cases n with
      | zero => simp [decDigitsFuel]
      | succ m =>
          rw [decDigitsFuel, Nat.digits_def' (by norm_num : 1 < 10) (Nat.succ_pos m)]
          have hdiv : (m + 1) / 10 ≤ fuel := by
            have h1 : (m + 1) / 10 < m + 1 := Nat.div_lt_self (Nat.succ_pos m) (by norm_num)
            omega
          rw [ih ((m + 1) / 10) hdiv]

/-- The fuel choice n is always enough fuel. -/
theorem decDigits_eq (n : Nat) : decDigits n = Nat.digits 10 n :=
  decDigitsFuel_eq n n le_rfl

/-- A decimal byte list equal to the rendering of zero comes from zero. -/
theorem natDecimalBytes_zero {l : List Nat} (h : l.map (· + 48) = [48]) :
    l = [0] := by
  cases l with
  | nil => cases h
  | cons d l2 =>
      rw [List.map_cons] at h
      cases l2 with
      | cons e l3 => cases h
      | nil =>
          have : d + 48 = 48 := by cases h; rfl
          have : d = 0 := by omega
          rw [this]

/-- The decimal rendering of a Nat is injective: distinct clock values give
distinct salt bytes. -/
theorem natDecimalBytes_inj {t1 t2 : Nat}
    (h : natDecimalBytes t1 = natDecimalBytes t2) : t1 = t2 := by
  have hofd : ∀ n : Nat, Nat.digits 10 n = [0] → n = 0 := by
    intro n hn
    have := Nat.ofDigits_digits 10 n
    rw [hn] at this
    simpa [Nat.ofDigits] using this.symm
  unfold natDecimalBytes at h
  rw [decDigits_eq, decDigits_eq] at h
  by_cases h1 : t1 = 0 <;> by_cases h2 : t2 = 0
  · rw [h1, h2]
  · rw [if_pos h1, if_neg h2] at h
    have := natDecimalBytes_zero h.symm
    have : Nat.digits 10 t2 = [0] := by
      have hr := congrArg List.reverse this
      simpa using hr
    exact absurd (hofd t2 this) h2
  · rw [if_neg h1, if_pos h2] at h
    have := natDecimalBytes_zero h
    have : Nat.digits 10 t1 = [0] := by
      have hr := congrArg List.reverse this
      simpa using hr
    exact absurd (hofd t1 this) h1
  · rw [if_neg h1, if_neg h2] at h
    have hinj : Function.Injective (fun d : Nat => d + 48) := by
      intro a b hab
      have : a + 48 = b + 48 := hab
      omega
    have hrev := List.map_injective_iff.mpr hinj h
    have hdig := List.reverse_injective hrev
    have := congrArg (Nat.ofDigits 10) hdig
    rwa [Nat.ofDigits_digits, Nat.ofDigits_digits] at this

/-- A decimal digit character is never a slash. -/
theorem digitChar_ne_slash : ∀ d : Nat, digitChar d ≠ '/'
  | 0 => by decide
  | 1 => by decide
  | 2 => by decide
  | 3 => by decide
  | 4 => by decide
  | 5 => by decide
  | 6 => by decide
  | 7 => by decide
  | 8 => by decide
  | 9 => by decide
  | n + 10 => by simp [digitChar]

/-- No character of a decimal rendering is a slash. -/
theorem natDecimalChars_ne_slash (n : Nat) :
    ∀ c ∈ natDecimalChars n, c ≠ '/' := by
  intro c hc
  unfold natDecimalChars at hc
  by_cases hn : n = 0
  · rw [if_pos hn] at hc
    simp only [List.mem_singleton] at hc
    rw [hc]; decide
  · rw [if_neg hn] at hc
    obtain ⟨d, _, rfl⟩ := List.mem_map.mp hc
    exact digitChar_ne_slash d

/-- Whitespace collapsing only introduces underscores: every output character
is an underscore or a character of the input. -/
theorem mem_collapseWs :
    ∀ (l : List Char) (flag : Bool) (c : Char),
      c ∈ collapseWs flag l → c = '_' ∨ c ∈ l := by
  intro l
  induction l with
  | nil => intro flag c hc; simp [collapseWs] at hc
  | cons a l2 ih =>
      intro flag c hc
      simp only [collapseWs] at hc
      by_cases hw : isJsWs a = true
      · rw [if_pos hw] at hc
        cases flag with
        | true =>
            simp only [if_pos rfl] at hc
            rcases ih true c hc with h | h
            · exact Or.inl h
            · exact Or.inr (List.mem_cons_of_mem a h)
        | false =>
            rw [if_neg (by decide)] at hc
            rcases List.mem_cons.mp hc with h | h
            · exact Or.inl h
            · rcases ih true c h with h2 | h2
              · exact Or.inl h2
              · exact Or.inr (List.mem_cons_of_mem a h2)
      · rw [if_neg hw] at hc
        rcases List.mem_cons.mp hc with h | h
        · exact Or.inr (h ▸ List.mem_cons_self a l2)
        · rcases ih false c h with h2 | h2
          · exact Or.inl h2
          · exact Or.inr (List.mem_cons_of_mem a h2)

/-- takeWhile stops exactly at the first failing element after a satisfying
run. -/
theorem takeWhile_append_all (p : Char → Bool) :
    ∀ (A : List Char) (b : Char) (B : List Char),
      (∀ c ∈ A, p c = true) → p b = false →
      List.takeWhile p (A ++ b :: B) = A := by
  intro A
  induction A with
  | nil => intro b B _ hb; simp [List.takeWhile_cons, hb]
  | cons a A2 ih =>
      intro b B hA hb
      rw [List.cons_append, List.takeWhile_cons,
          if_pos (hA a (List.mem_cons_self a A2)),
          ih b B (fun c hc => hA c (List.mem_cons_of_mem a hc)) hb]

/-- basename of a slash-separated concatenation whose last segment is
slash-free is that last segment. -/
theorem basename_slash_append (pre fn : String)
    (hfn : ∀ c ∈ fn.data, c ≠ '/') : basename (pre ++ "/" ++ fn) = fn := by
  unfold basename
  have hd : (pre ++ "/" ++ fn).data = pre.data ++ '/' :: fn.data := by
    rw [String.data_append, String.data_append]
    simp [List.append_assoc]
  rw [hd]
  have hrev : (pre.data ++ '/' :: fn.data).reverse =
      fn.data.reverse ++ '/' :: pre.data.reverse := by
    simp
  rw [hrev, takeWhile_append_all _ _ _ _
        (fun c hc => by
          have : c ∈ fn.data := List.mem_reverse.mp hc
          simpa using hfn c this)
        (by decide),
      List.reverse_reverse]

/-- The stored filename built by the upload handler contains no slash,
provided the client-supplied original name contains none. -/
theorem filename_chars_ne_slash (ts : Nat) (orig : String)
    (h : ∀ c ∈ orig.data, c ≠ '/') :
    ∀ c ∈ (natDecimalString ts ++ "_" ++ safeName orig).data, c ≠ '/' := by
  intro c hc
  rw [String.data_append, String.data_append] at hc
  rcases List.mem_append.mp hc with h1 | h2
  · rcases List.mem_append.mp h1 with h11 | h12
    · exact natDecimalChars_ne_slash ts c h11
    · have : c = '_' := by simpa using h12
      rw [this]; decide
  · rcases mem_collapseWs orig.data false c h2 with h3 | h3
    · rw [h3]; decide
    · exact h c h3

/-! ## Concrete fixtures used by the claim theorems -/

/-- A record of the store, owned by user 7. -/
def rec1 : ImageRec :=
  { id := 1, user := 7, filename := "a.png",
    originalUrl := "/uploads/originals/a.png",
    thumbnailUrl := "/uploads/thumbnails/a.png", fileSize := 10,
    mimeType := "image/png", resolutionWidth := none, resolutionHeight := none,
    title := none, description := none, tags := [], bookmarked := false,
    viewCount := 0, hash := "h1", sharePassword := none,
    createdAt := 1, updatedAt := 1 }

/-- A second record, created later than the first. -/
def rec2 : ImageRec :=
  { rec1 with
    id := 2,
    filename := "b.png",
    originalUrl := "/uploads/originals/b.png",
    thumbnailUrl := "/uploads/thumbnails/b.png",
    hash := "h2",
    createdAt := 2,
    updatedAt := 2 }

/-- A two-record store owned by user 7. -/
def demoStore : List ImageRec := [rec1, rec2]

/-- A batch file whose buffer sharp accepts. -/
def fileOk : UploadFile :=
  ⟨"ok.png", [1, 2, 3], 3, "image/png", true, some 4, some 2⟩

/-- A batch file whose buffer sharp rejects. -/
def fileBad : UploadFile :=
  ⟨"bad.bin", [9], 1, "application/octet-stream", false, none, none⟩

/-- A two-file batch whose second item fails. -/
def c1Files : List (UploadFile × Nat × Nat) := [(fileOk, 1, 2), (fileBad, 3, 4)]

/-! ## Claim C1 -/

/-- Claim C1, counterexample.  The claim says a failing item does not fail
the batch and the response is still the 201 list of the other items'
records.  On the concrete two-file batch whose second buffer is unreadable,
the endpoint answers the 500 server error, not a 201 list, even though the
first item's record was created (the store gained one record). -/
theorem c1_counterexample :
    (uploadMultipleImages 7 c1Files []).1 = UploadResp.serverError500 ∧
    uploadRespIsCreated (uploadMultipleImages 7 c1Files []).1 = false ∧
    (uploadMultipleImages 7 c1Files []).2.length = 1 := by
  refine ⟨by decide, by decide, by decide⟩

/-- Claim C1, amended: upload batches are all-or-nothing in the response.
An empty batch answers 400.  A 201 answer carries exactly one record per
uploaded file, all appended to the store.  When any item fails, the
response is the 500 server error with no record list; the records of the
items processed before the failure remain in the store, but at least one
item went unprocessed. -/
theorem c1_batch_all_or_nothing (uid : Nat)
    (files : List (UploadFile × Nat × Nat)) (store recs : List ImageRec) :
    ((uploadMultipleImages uid files store).1 = UploadResp.badRequest400 ↔
      files = []) ∧
    ((uploadMultipleImages uid files store).1 = UploadResp.created201 recs →
      recs.length = files.length ∧
      (uploadMultipleImages uid files store).2 = store ++ recs) ∧
    ((uploadMultipleImages uid files store).1 = UploadResp.serverError500 →
      (uploadMultipleImages uid files store).2.take store.length = store ∧
      (uploadMultipleImages uid files store).2.length <
        store.length + files.length) := by
  unfold uploadMultipleImages
  by_cases hf : files.isEmpty = true
  · have hfe : files = [] := by simpa using hf
    subst hfe
    refine ⟨by simp, ?_, ?_⟩ <;> intro h <;> simp at h
  · have hne : files ≠ [] := by simpa using hf
    rw [if_neg hf]
    refine ⟨?_, ?_, ?_⟩
    · constructor
      · intro hbad
        exact absurd hbad (uploadLoop_ne_badRequest uid files store [])
      · intro h; exact absurd h hne
    · intro h
      obtain ⟨added, h1, h2, h3⟩ :=
        uploadLoop_created_spec uid files store [] recs h
      rw [List.nil_append] at h1
      subst h1
      exact ⟨h2, h3⟩
    · intro h
      obtain ⟨pre, h1, h2⟩ := uploadLoop_error_spec uid files store [] h
      rw [h1]
      constructor
      · exact List.take_left store pre
      · rw [List.length_append]; omega

/-- Claim C1, witness: the amended theorem applied to the failing demo
batch. -/
theorem c1_witness :
    (uploadMultipleImages 7 c1Files []).2.take 0 = ([] : List ImageRec) ∧
    (uploadMultipleImages 7 c1Files []).2.length < 0 + c1Files.length :=
  (c1_batch_all_or_nothing 7 c1Files [] []).2.2 (by decide)

/-! ## Claim C5 -/

/-- The file used for the duplicate-upload scenario. -/
def c5File : UploadFile := ⟨"dup.png", [5, 6], 2, "image/png", true, some 1, some 1⟩

/-- Claim C5, counterexample.  The claim says uploading the same bytes twice
always yields two records with different fingerprints.  When the two uploads
read the same clock value (two uploads within one millisecond), the
fingerprints coincide, the unique hash index rejects the second create, and
the second request fails with 500: no second record exists at all. -/
theorem c5_counterexample :
    uploadRespIsCreated (uploadMultipleImages 7 [(c5File, 5, 5)] []).1 = true ∧
    (uploadMultipleImages 7 [(c5File, 5, 5)] []).2.map ImageRec.hash =
      [computeFingerprint [5, 6] 5] ∧
    (uploadMultipleImages 7 [(c5File, 5, 5)]
        (uploadMultipleImages 7 [(c5File, 5, 5)] []).2).1 =
      UploadResp.serverError500 ∧
    (uploadMultipleImages 7 [(c5File, 5, 5)]
        (uploadMultipleImages 7 [(c5File, 5, 5)] []).2).2.length = 1 := by
  refine ⟨by decide, by decide, by decide, by decide⟩

/-- Claim C5, amended: the fingerprint is a 64-character hex digest of the
file bytes followed by the decimal time salt; two uploads of the same bytes
feed distinct inputs to the digest exactly when their clock reads differ
(equal clock reads give the identical fingerprint), and on sample inputs
distinct salts indeed give distinct digests. -/
theorem c5_fingerprint (b : List Nat) (t t1 t2 : Nat) (hne : t1 ≠ t2) :
    (computeFingerprint b t).length = 64 ∧
    fingerprintInput b t1 ≠ fingerprintInput b t2 ∧
    computeFingerprint [0, 1, 2] 5 ≠ computeFingerprint [0, 1, 2] 6 := by
  refine ⟨?_, ?_, by decide⟩
  · simp [computeFingerprint, sha256Hex, String.length_append, hex8_length]
  · intro heq
    simp only [fingerprintInput] at heq
    exact hne (natDecimalBytes_inj (List.append_cancel_left heq))

/-- Claim C5, witness: the amended theorem at concrete bytes and salts. -/
theorem c5_witness :
    (computeFingerprint [7] 3).length = 64 ∧
    fingerprintInput [7] 3 ≠ fingerprintInput [7] 4 ∧
    computeFingerprint [0, 1, 2] 5 ≠ computeFingerprint [0, 1, 2] 6 :=
  c5_fingerprint [7] 3 3 4 (by decide)

/-! ## Claim C2 -/

/-- A list query requesting an unknown sort field in ascending order. -/
def c2Query : ListQuery := ⟨1, 10, "bogus", "ascend", none, none, none, none⟩

/-- Claim C2, counterexample.  The claim says an unknown sortField falls back
to createdAt in descending order regardless of sortOrder.  With
sortField=bogus and sortOrder=ascend the code sorts by createdAt ascending:
the sort pair is (createdAt, 1), and on a concrete two-record store the
returned data is in ascending creation order. -/
theorem c2_counterexample :
    buildSort "bogus" "ascend" = ("createdAt", 1) ∧ ((1 : Int) ≠ -1) ∧
    (getImages demoStore 7 c2Query).data = [rec1, rec2] ∧
    [rec1, rec2] ≠ [rec2, rec1] := by
  refine ⟨by decide, by decide, by decide, by decide⟩

/-- Claim C2, amended: a sortField outside the allow-list falls back to the
createdAt field, behaving exactly as if createdAt had been requested, but
the direction still follows sortOrder: ascending for "ascend", descending
otherwise (in particular for the default "descend"). -/
theorem c2_sort_fallback (store : List ImageRec) (uid : Nat) (q : ListQuery)
    (h : allowedSortFields.contains q.sortField = false) :
    getImages store uid q = getImages store uid { q with sortField := "createdAt" } ∧
    buildSort q.sortField q.sortOrder =
      ("createdAt", if q.sortOrder == "ascend" then (1 : Int) else -1) := by
  obtain ⟨p, s, f, o, ti, de, tg, bo⟩ := q
  dsimp only at h ⊢
  have hb : buildSort f o = buildSort "createdAt" o := by
    unfold buildSort
    rw [if_neg (by simpa using h)]
    simp only [ite_self]
  constructor
  · unfold getImages sortedFiltered
    dsimp only
    rw [hb]
    rfl
  · unfold buildSort
    rw [if_neg (by simpa using h)]

/-- A list query requesting an unknown sort field in (default) descending
order. -/
def c2QueryD : ListQuery := ⟨1, 10, "bogus", "descend", none, none, none, none⟩

/-- Claim C2, witness: the amended theorem at the concrete store and query. -/
theorem c2_witness :
    getImages demoStore 7 c2QueryD =
      getImages demoStore 7 { c2QueryD with sortField := "createdAt" } ∧
    buildSort c2QueryD.sortField c2QueryD.sortOrder =
      ("createdAt", if c2QueryD.sortOrder == "ascend" then (1 : Int) else -1) :=
  c2_sort_fallback demoStore 7 c2QueryD (by decide)

/-! ## Claim C3 -/

/-- A password-protected shared record. -/
def c3rec : ImageRec :=
  { rec1 with
    id := 3,
    hash := "abc",
    sharePassword := some "pw",
    viewCount := 5 }

/-- A one-record store for the hash lookup. -/
def c3Store : List ImageRec := [c3rec]

/-- Claim C3: when the record with the hash exists, a failing loose
comparison of the stored and supplied sharePassword answers 404 (the same
passwordMismatch404 response, whose status is 404 and not 401) and returns
the store untouched, so viewCount and every other field are unchanged;
only a successful comparison answers 200 and stores the record with
viewCount incremented by exactly one (and the refreshed updatedAt
timestamp). -/
theorem c3_wrong_password (store : List ImageRec) (h : String)
    (pw : Option String) (proto host : String) (now : Nat) (r : ImageRec)
    (hfind : store.find? (fun x => x.hash == h) = some r) :
    (getImageByHash store h pw proto host now).1 =
      (if jsLooseEqOptStr r.sharePassword pw then
        HashResp.ok200 r.id h (proto ++ "://" ++ host ++ r.originalUrl)
       else HashResp.passwordMismatch404) ∧
    (getImageByHash store h pw proto host now).2 =
      (if jsLooseEqOptStr r.sharePassword pw then
        saveImage store { r with viewCount := r.viewCount + 1, updatedAt := now }
       else store) ∧
    hashRespStatus HashResp.passwordMismatch404 = 404 ∧
    hashRespStatus HashResp.passwordMismatch404 ≠ 401 ∧
    (getImageByHash store h pw proto host now).2.find? (fun x => x.hash == h) =
      (if jsLooseEqOptStr r.sharePassword pw then
        some { r with viewCount := r.viewCount + 1, updatedAt := now }
       else some r) := by
  have hph := List.find?_some hfind
  by_cases hm : jsLooseEqOptStr r.sharePassword pw = true
  · refine ⟨?_, ?_, rfl, by decide, ?_⟩
    · simp [getImageByHash, hfind, hm]
    · simp [getImageByHash, hfind, hm]
    · have h2 : (getImageByHash store h pw proto host now).2 =
          saveImage store { r with viewCount := r.viewCount + 1, updatedAt := now } := by
        simp [getImageByHash, hfind, hm]
      rw [h2, if_pos hm]
      exact find?_saveImage store _ r _ hfind hph rfl
  · have hm2 : jsLooseEqOptStr r.sharePassword pw = false := by
      simpa using hm
    refine ⟨?_, ?_, rfl, by decide, ?_⟩
    · simp [getImageByHash, hfind, hm2]
    · simp [getImageByHash, hfind, hm2]
    · have h2 : (getImageByHash store h pw proto host now).2 = store := by
        simp [getImageByHash, hfind, hm2]
      rw [h2, if_neg (by simp [hm2])]
      exact hfind

/-- Claim C3, witness: the hash lookup of the concrete protected record with
a wrong password. -/
theorem c3_witness :
    (getImageByHash c3Store "abc" (some "wrong") "http" "x" 9).1 =
      (if jsLooseEqOptStr c3rec.sharePassword (some "wrong") then
        HashResp.ok200 c3rec.id "abc" ("http" ++ "://" ++ "x" ++ c3rec.originalUrl)
       else HashResp.passwordMismatch404) ∧
    (getImageByHash c3Store "abc" (some "wrong") "http" "x" 9).2 =
      (if jsLooseEqOptStr c3rec.sharePassword (some "wrong") then
        saveImage c3Store { c3rec with viewCount := c3rec.viewCount + 1, updatedAt := 9 }
       else c3Store) ∧
    hashRespStatus HashResp.passwordMismatch404 = 404 ∧
    hashRespStatus HashResp.passwordMismatch404 ≠ 401 ∧
    (getImageByHash c3Store "abc" (some "wrong") "http" "x" 9).2.find?
        (fun x => x.hash == "abc") =
      (if jsLooseEqOptStr c3rec.sharePassword (some "wrong") then
        some { c3rec with viewCount := c3rec.viewCount + 1, updatedAt := 9 }
       else some c3rec) :=
  c3_wrong_password c3Store "abc" (some "wrong") "http" "x" 9 c3rec (by decide)

/-! ## Claim C4 -/

/-- Claim C4: the returned page is the slice of the sorted filtered sequence
from position (page-1)*pageSize of length at most pageSize (elementwise: the
item at index i of the page is the item at position (page-1)*pageSize+i of
the sorted filtered sequence), and total is the number of records matching
the filter, unchanged under any other page and pageSize. -/
theorem c4_pagination (store : List ImageRec) (uid : Nat) (q : ListQuery)
    (i p2 s2 : Nat) (hp : 1 ≤ q.pageNum) (hi : i < q.pageSizeNum) :
    (getImages store uid q).data.length ≤ q.pageSizeNum ∧
    (getImages store uid q).data[i]? =
      (sortedFiltered store uid q)[(q.pageNum - 1) * q.pageSizeNum + i]? ∧
    (getImages store uid q).total = (store.filter (matchesFilter uid q)).length ∧
    (getImages store uid { q with pageNum := p2, pageSizeNum := s2 }).total =
      (getImages store uid q).total := by
  obtain ⟨p, s, f, o, ti, de, tg, bo⟩ := q
  dsimp only at hp hi ⊢
  refine ⟨?_, ?_, rfl, rfl⟩
  · exact List.length_take_le _ _
  · show (((sortedFiltered store uid _).drop ((p - 1) * s)).take s)[i]? = _
    rw [List.getElem?_take, if_pos hi, List.getElem?_drop]

/-- The query for the pagination witness: second page of size one. -/
def c4Query : ListQuery := ⟨2, 1, "createdAt", "descend", none, none, none, none⟩

/-- Claim C4, witness: the pagination theorem at the concrete store and
query. -/
theorem c4_witness :
    (getImages demoStore 7 c4Query).data.length ≤ c4Query.pageSizeNum ∧
    (getImages demoStore 7 c4Query).data[0]? =
      (sortedFiltered demoStore 7 c4Query)[(c4Query.pageNum - 1) * c4Query.pageSizeNum + 0]? ∧
    (getImages demoStore 7 c4Query).total =
      (demoStore.filter (matchesFilter 7 c4Query)).length ∧
    (getImages demoStore 7 { c4Query with pageNum := 5, pageSizeNum := 3 }).total =
      (getImages demoStore 7 c4Query).total :=
  c4_pagination demoStore 7 c4Query 0 5 3 (by decide) (by decide)

/-! ## Claim C6 -/

/-- A record with all mutable fields populated. -/
def c6rec : ImageRec :=
  { rec1 with
    id := 6,
    title := some "t",
    description := some "d",
    tags := ["x"],
    sharePassword := some "s",
    bookmarked := true,
    viewCount := 3 }

/-- A one-record store for the details update. -/
def c6Store : List ImageRec := [c6rec]

/-- A details body carrying only an untrimmed tag. -/
def c6Body : DetailsBody := ⟨none, none, some [" a "], none⟩

/-- Claim C6, counterexample.  The claim says the four fields are overwritten
with the values from the request body.  For tags this fails: a body tag
" a " is stored trimmed as "a", not as the body value. -/
theorem c6_counterexample :
    (detailsRespRecord (updateImageDetails c6Store 6 7 c6Body 99).1).map
        ImageRec.tags = some ["a"] ∧
    some ["a"] ≠ some [" a "] := by
  exact ⟨by decide, by decide⟩

/-- Claim C6, amended: the details update overwrites exactly title,
description, tags and sharePassword from the body — title, description and
sharePassword verbatim (absent body fields clear them), tags as the body
list with each entry trimmed and empty entries dropped (an absent or
non-array body value yields the empty list) — refreshes updatedAt, and
leaves every other field (bookmarked, viewCount, hash, filename, URLs,
sizes, resolution, MIME type, owner, creation time) unchanged. -/
theorem c6_details_update (store : List ImageRec) (imgId uid : Nat)
    (body : DetailsBody) (now : Nat) (r : ImageRec)
    (hfind : findImageByIdUser store imgId uid = some r) :
    (updateImageDetails store imgId uid body now).1 =
      DetailsResp.ok200
        { r with
          title := body.title,
          description := body.description,
          tags := normalizeTags body.tags,
          sharePassword := body.sharePassword,
          updatedAt := now } ∧
    (updateImageDetails store imgId uid body now).2 =
      saveImage store
        { r with
          title := body.title,
          description := body.description,
          tags := normalizeTags body.tags,
          sharePassword := body.sharePassword,
          updatedAt := now } ∧
    normalizeTags none = [] ∧
    normalizeTags (some [" a ", "", "b"]) = ["a", "b"] ∧
    (detailsRespRecord (updateImageDetails store imgId uid body now).1).map
        ImageRec.bookmarked = some r.bookmarked ∧
    (detailsRespRecord (updateImageDetails store imgId uid body now).1).map
        ImageRec.viewCount = some r.viewCount ∧
    (detailsRespRecord (updateImageDetails store imgId uid body now).1).map
        ImageRec.hash = some r.hash ∧
    (detailsRespRecord (updateImageDetails store imgId uid body now).1).map
        ImageRec.filename = some r.filename ∧
    (detailsRespRecord (updateImageDetails store imgId uid body now).1).map
        ImageRec.originalUrl = some r.originalUrl ∧
    (detailsRespRecord (updateImageDetails store imgId uid body now).1).map
        ImageRec.thumbnailUrl = some r.thumbnailUrl ∧
    (detailsRespRecord (updateImageDetails store imgId uid body now).1).map
        ImageRec.fileSize = some r.fileSize ∧
    (detailsRespRecord (updateImageDetails store imgId uid body now).1).map
        ImageRec.user = some r.user ∧
    (detailsRespRecord (updateImageDetails store imgId uid body now).1).map
        ImageRec.createdAt = some r.createdAt := by
  have hu : updateImageDetails store imgId uid body now =
      (DetailsResp.ok200
        { r with
          title := body.title,
          description := body.description,
          tags := normalizeTags body.tags,
          sharePassword := body.sharePassword,
          updatedAt := now },
       saveImage store
        { r with
          title := body.title,
          description := body.description,
          tags := normalizeTags body.tags,
          sharePassword := body.sharePassword,
          updatedAt := now }) := by
    unfold updateImageDetails
    rw [hfind]
  rw [hu]
  refine ⟨rfl, rfl, rfl, by decide, rfl, rfl, rfl, rfl, rfl, rfl, rfl, rfl, rfl⟩

/-- Claim C6, witness: the amended theorem at the concrete store and body. -/
theorem c6_witness :
    (updateImageDetails c6Store 6 7 c6Body 99).1 =
      DetailsResp.ok200
        { c6rec with
          title := c6Body.title,
          description := c6Body.description,
          tags := normalizeTags c6Body.tags,
          sharePassword := c6Body.sharePassword,
          updatedAt := 99 } ∧
    (updateImageDetails c6Store 6 7 c6Body 99).2 =
      saveImage c6Store
        { c6rec with
          title := c6Body.title,
          description := c6Body.description,
          tags := normalizeTags c6Body.tags,
          sharePassword := c6Body.sharePassword,
          updatedAt := 99 } ∧
    normalizeTags none = [] ∧
    normalizeTags (some [" a ", "", "b"]) = ["a", "b"] ∧
    (detailsRespRecord (updateImageDetails c6Store 6 7 c6Body 99).1).map
        ImageRec.bookmarked = some c6rec.bookmarked ∧
    (detailsRespRecord (updateImageDetails c6Store 6 7 c6Body 99).1).map
        ImageRec.viewCount = some c6rec.viewCount ∧
    (detailsRespRecord (updateImageDetails c6Store 6 7 c6Body 99).1).map
        ImageRec.hash = some c6rec.hash ∧
    (detailsRespRecord (updateImageDetails c6Store 6 7 c6Body 99).1).map
        ImageRec.filename = some c6rec.filename ∧
    (detailsRespRecord (updateImageDetails c6Store 6 7 c6Body 99).1).map
        ImageRec.originalUrl = some c6rec.originalUrl ∧
    (detailsRespRecord (updateImageDetails c6Store 6 7 c6Body 99).1).map
        ImageRec.thumbnailUrl = some c6rec.thumbnailUrl ∧
    (detailsRespRecord (updateImageDetails c6Store 6 7 c6Body 99).1).map
        ImageRec.fileSize = some c6rec.fileSize ∧
    (detailsRespRecord (updateImageDetails c6Store 6 7 c6Body 99).1).map
        ImageRec.user = some c6rec.user ∧
    (detailsRespRecord (updateImageDetails c6Store 6 7 c6Body 99).1).map
        ImageRec.createdAt = some c6rec.createdAt :=
  c6_details_update c6Store 6 7 c6Body 99 c6rec (by decide)

/-! ## Claim C7 -/

/-- Claim C7: a bookmark request whose body carries a boolean sets the flag
to that boolean; a request without a usable value negates the flag; and two
consecutive no-body requests return the flag to its original value (the
toggle is an involution at the store level: the second request operates on
the store saved by the first). -/
theorem c7_bookmark_toggle (store : List ImageRec) (imgId uid now1 now2 : Nat)
    (b : Bool) (r : ImageRec)
    (hfind : findImageByIdUser store imgId uid = some r) :
    (bookmarkRespRecord
        (updateToggleBookmark store imgId uid (some (JsVal.jbool b)) now1).1).map
      ImageRec.bookmarked = some b ∧
    (bookmarkRespRecord (updateToggleBookmark store imgId uid none now1).1).map
      ImageRec.bookmarked = some (!r.bookmarked) ∧
    (bookmarkRespRecord
        (updateToggleBookmark (updateToggleBookmark store imgId uid none now1).2
          imgId uid none now2).1).map
      ImageRec.bookmarked = some r.bookmarked := by
  have hfind2 : List.find? (fun x : ImageRec => x.id == imgId && x.user == uid)
      store = some r := hfind
  have hp : (fun x : ImageRec => x.id == imgId && x.user == uid) r = true :=
    @List.find?_some ImageRec (fun x => x.id == imgId && x.user == uid) r store
      hfind2
  refine ⟨?_, ?_, ?_⟩
  · unfold updateToggleBookmark
    rw [hfind]
    rfl
  · unfold updateToggleBookmark
    rw [hfind]
    rfl
  · have hs : (updateToggleBookmark store imgId uid none now1).2 =
        saveImage store { r with bookmarked := !r.bookmarked, updatedAt := now1 } := by
      unfold updateToggleBookmark
      rw [hfind]
    have hfind3 : findImageByIdUser
        (saveImage store { r with bookmarked := !r.bookmarked, updatedAt := now1 })
        imgId uid =
        some { r with bookmarked := !r.bookmarked, updatedAt := now1 } :=
      find?_saveImage store _ r _ hfind hp rfl
    rw [hs]
    unfold updateToggleBookmark
    rw [hfind3]
    dsimp only
    simp only [Bool.not_not]
    rfl

/-- A record for the bookmark witnesses. -/
def c7rec : ImageRec :=
  { rec1 with id := 9 }

/-- A one-record store for the bookmark witnesses. -/
def c7Store : List ImageRec := [c7rec]

/-- Claim C7, witness: the toggle theorem at the concrete store. -/
theorem c7_witness :
    (bookmarkRespRecord
        (updateToggleBookmark c7Store 9 7 (some (JsVal.jbool true)) 2).1).map
      ImageRec.bookmarked = some true ∧
    (bookmarkRespRecord (updateToggleBookmark c7Store 9 7 none 2).1).map
      ImageRec.bookmarked = some (!c7rec.bookmarked) ∧
    (bookmarkRespRecord
        (updateToggleBookmark (updateToggleBookmark c7Store 9 7 none 2).2
          9 7 none 3).1).map
      ImageRec.bookmarked = some c7rec.bookmarked :=
  c7_bookmark_toggle c7Store 9 7 2 3 true c7rec (by decide)

/-! ## Claim C8 -/

/-- Claim C8: every record the upload creates stores one shared name: the
filename field equals the basename of originalUrl and of thumbnailUrl, and
therefore the AI-metadata endpoint, which joins the originals directory
with the basename of thumbnailUrl, reads exactly the path the original
artifact was written to — provided the client-sent original name contains
no slash (with a slash the artifact write itself fails and no record is
created). -/
theorem c8_shared_basename (file : UploadFile) (tsName tsSalt newId uid : Nat)
    (store : List ImageRec) (img : ImageRec)
    (hname : ∀ c ∈ file.originalname.data, c ≠ '/')
    (hok : processFile file tsName tsSalt newId uid store = Except.ok img) :
    basename img.originalUrl = img.filename ∧
    basename img.thumbnailUrl = img.filename ∧
    aiReadPath img = originalFsPathFor img.filename := by
  have hfn : ∀ c ∈ (natDecimalString tsName ++ "_" ++ safeName file.originalname).data,
      c ≠ '/' := filename_chars_ne_slash tsName file.originalname hname
  unfold processFile at hok
  by_cases hr : file.readable = true
  · rw [hr] at hok
    dsimp only [Bool.not_true] at hok
    rw [if_neg (by simp)] at hok
    by_cases hd : store.any
        (fun r => r.hash == computeFingerprint file.buffer tsSalt) = true
    · rw [if_pos hd] at hok
      cases hok
    · rw [if_neg (by simp [hd])] at hok
      have himg := hok
      cases himg
      refine ⟨?_, ?_, ?_⟩
      · exact basename_slash_append "/uploads/originals"
          (natDecimalString tsName ++ "_" ++ safeName file.originalname) hfn
      · exact basename_slash_append "/uploads/thumbnails"
          (natDecimalString tsName ++ "_" ++ safeName file.originalname) hfn
      · unfold aiReadPath
        rw [show basename
            ("/uploads/thumbnails/" ++
              (natDecimalString tsName ++ "_" ++ safeName file.originalname)) =
            natDecimalString tsName ++ "_" ++ safeName file.originalname from
          basename_slash_append "/uploads/thumbnails" _ hfn]
  · rw [show file.readable = false by simpa using hr] at hok
    simp at hok

/-- The file for the upload-invariant witness. -/
def c8File : UploadFile := ⟨"pic.png", [1, 2, 3], 3, "image/png", true, some 2, some 1⟩

/-- The record the upload loop creates for c8File at clock reads 1 and 2,
spelled with the same expressions processFile builds. -/
def c8Rec : ImageRec :=
  { id := 0, user := 7,
    filename := natDecimalString 1 ++ "_" ++ safeName "pic.png",
    originalUrl := "/uploads/originals/" ++ (natDecimalString 1 ++ "_" ++ safeName "pic.png"),
    thumbnailUrl := "/uploads/thumbnails/" ++ (natDecimalString 1 ++ "_" ++ safeName "pic.png"),
    fileSize := 3, mimeType := "image/png", resolutionWidth := some 2,
    resolutionHeight := some 1, title := none, description := none, tags := [],
    bookmarked := false, viewCount := 0,
    hash := computeFingerprint [1, 2, 3] 2, sharePassword := none,
    createdAt := 2, updatedAt := 2 }

/-- Claim C8, witness: the invariant at a concretely processed file. -/
theorem c8_witness :
    basename c8Rec.originalUrl = c8Rec.filename ∧
    basename c8Rec.thumbnailUrl = c8Rec.filename ∧
    aiReadPath c8Rec = originalFsPathFor c8Rec.filename :=
  c8_shared_basename c8File 1 2 0 7 [] c8Rec (by decide) rfl

/-! ## Claim C9 -/

/-- Claim C9: with the AI client configured, the record owned and found, the
artifact read and the completion call succeeding, an AI response whose
content is not a string — or whose fence-stripped content fails JSON
parsing — produces the 200 response carrying the empty suggestions object,
not an error status. -/
theorem c9_ai_unparsable (store : List ImageRec) (imgId uid : Nat)
    (r : ImageRec) (parseJson : String → Option AIMetadata)
    (content : Option String)
    (hfind : findImageByIdUser store imgId uid = some r)
    (hc : ∀ s, content = some s → parseJson (stripFences s) = none) :
    generateAIMetadata true store imgId uid true true parseJson content =
      AIResp.ok200 emptyAIMetadata ∧
    aiRespStatus
      (generateAIMetadata true store imgId uid true true parseJson content) = 200 := by
  have hmain : generateAIMetadata true store imgId uid true true parseJson content =
      AIResp.ok200 emptyAIMetadata := by
    unfold generateAIMetadata
    rw [hfind]
    cases content with
    | none => rfl
    | some c => simp [callOpenAIMetadata, hc c rfl]
  exact ⟨hmain, by rw [hmain]; rfl⟩

/-- Claim C9, witness: a string content that parses to nothing yields the
empty suggestions with status 200. -/
theorem c9_witness :
    generateAIMetadata true demoStore 1 7 true true (fun _ => none)
        (some "not json") = AIResp.ok200 emptyAIMetadata ∧
    aiRespStatus
      (generateAIMetadata true demoStore 1 7 true true (fun _ => none)
        (some "not json")) = 200 :=
  c9_ai_unparsable demoStore 1 7 rec1 (fun _ => none) (some "not json")
    (by decide) (fun s _ => rfl)

/-! ## Claim C10 -/

/-- Claim C10: a bookmark body value of any non-boolean type is ignored —
the endpoint behaves exactly as if no value had been supplied, toggling the
flag instead of setting it or rejecting the request. -/
theorem c10_nonbool_toggles (store : List ImageRec) (imgId uid now : Nat)
    (v : JsVal) (hv : ∀ b : Bool, v ≠ JsVal.jbool b) :
    updateToggleBookmark store imgId uid (some v) now =
      updateToggleBookmark store imgId uid none now := by
  unfold updateToggleBookmark
  cases v with
  | jbool b => exact absurd rfl (hv b)
  | jstr str => rfl
  | jnum n => rfl
  | jnull => rfl

/-- Claim C10, witness: the string value "true" toggles exactly like an
absent value. -/
theorem c10_witness :
    updateToggleBookmark demoStore 1 7 (some (JsVal.jstr "true")) 4 =
      updateToggleBookmark demoStore 1 7 none 4 :=
  c10_nonbool_toggles demoStore 1 7 4 (JsVal.jstr "true")
    (fun b => by cases b <;> decide)

end AirGo
